import Mathlib

/-!
Verification of the playback-coordination core of `react-play-button`
(`src/index.js`, class `PlayButton`).

Numbers are modelled as rationals (`Rat`). A JavaScript numeric value that
may be `undefined` or `NaN` is modelled as `Option Rat`, with `none`
standing for the non-finite / undefined case. Side effects on the external
audio engine are modelled as an explicit `Effect` trace; the component's
mutable fields (`this.howler`, `this.state.loading`, `this.state.duration`,
`this.state.progress`) are modelled as a `ComponentState` record.
-/

/-- Target shapes of the icon morph animation: the argument of
`animateIcon(shape)` in `src/index.js`. -/
inductive Shape where
  | play
  | stop
deriving DecidableEq

/-- One external side effect issued by the coordinator, in program order.
`play`, `fade` and `scheduleStop` are calls into the audio engine
(`this.howler.play()`, `this.howler.fade(from, to, ms)` and
`window.setTimeout(() => this.howler.stop(), ms)` — the latter is a timer,
not a frame callback); `animateIcon`, `setProgress` and
`startProgressLoop` are the coordinator's own loop starts and state
resets; `rebind url` is the `setupHowler()` call that releases the old
howler session and binds a new one. -/
inductive Effect where
  | play
  | fade (fromVol toVol durationMs : Rat)
  | scheduleStop (delayMs : Rat)
  | animateIcon (shape : Shape)
  | setProgress (p : Rat)
  | startProgressLoop
  | rebind (url : String)
deriving DecidableEq

/-- `triggerPlayAudio()` from `src/index.js` lines 86-96, as its effect
trace: `this.howler.play(); this.howler.fade(0, 1, fadeInLength);
this.animateIcon('stop'); this.setState({ progress: 0 },
() => this.updateProgress())`. -/
def triggerPlayAudio (fadeInLength : Rat) : List Effect :=
  [Effect.play, Effect.fade 0 1 fadeInLength, Effect.animateIcon Shape.stop,
   Effect.setProgress 0, Effect.startProgressLoop]

/-- `triggerStopAudio()` from `src/index.js` lines 98-105, as its effect
trace: `this.howler.fade(1, 0, fadeOutLength);
window.setTimeout(() => this.howler.stop(), fadeOutLength);
this.animateIcon('play'); this.setState({ progress: 0 })`. -/
def triggerStopAudio (fadeOutLength : Rat) : List Effect :=
  [Effect.fade 1 0 fadeOutLength, Effect.scheduleStop fadeOutLength,
   Effect.animateIcon Shape.play, Effect.setProgress 0]

/-- `componentWillReceiveProps(nextProps)` from `src/index.js` lines 69-84,
as the effect trace of one props update:
`justStartedPlaying = !this.props.active && nextProps.active` triggers
`triggerPlayAudio()`; `justStoppedPlaying = this.props.active &&
!nextProps.active` triggers `triggerStopAudio()`; afterwards
`newAudioClip = this.props.url !== nextProps.url` triggers
`setupHowler()` (modelled as `Effect.rebind`). -/
def componentWillReceiveProps (prevActive nextActive : Bool)
    (prevUrl nextUrl : String) (fadeInLength fadeOutLength : Rat) :
    List Effect :=
  (if !prevActive && nextActive then triggerPlayAudio fadeInLength
   else if prevActive && !nextActive then triggerStopAudio fadeOutLength
   else []) ++
  (if prevUrl = nextUrl then [] else [Effect.rebind nextUrl])

/-- Recognizer for `play()` calls in an effect trace. -/
def isPlay : Effect → Bool
  | Effect.play => true
  | _ => false

/-- Recognizer for `fadeVolume` calls in an effect trace. -/
def isFade : Effect → Bool
  | Effect.fade _ _ _ => true
  | _ => false

/-- Recognizer for scheduled `stop()` calls in an effect trace. -/
def isScheduleStop : Effect → Bool
  | Effect.scheduleStop _ => true
  | _ => false

/-- Division as JavaScript performs it on possibly-undefined numbers:
if either operand is `undefined`/`NaN` (here `none`), or the divisor is
zero (where JavaScript produces a non-finite result), the result is not a
finite number (`none`); otherwise it is the exact quotient. -/
def jsDiv : Option Rat → Option Rat → Option Rat
  | some a, some b => if b = 0 then none else some (a / b)
  | _, _ => none

/-- One tick of `updateProgress()` from `src/index.js` lines 128-139.
The tick first checks `if (!this.props.active) return;` — when inactive it
publishes nothing (outer `none`). When active it publishes
`(this.howler.seek() * 1000) / this.state.duration` as the new progress,
where `this.state.duration` is `undefined` (inner `none`) until the
howler `onload` callback has fired. The division is unguarded. -/
def updateProgressTick (active : Bool) (seekSec : Rat)
    (durationMs : Option Rat) : Option (Option Rat) :=
  if active then some (jsDiv (some (seekSec * 1000)) durationMs) else none

/-- The self-rescheduling `updateProgress()` loop: each frame tick observes
the current `active` flag and the current `seek()` value; if the flag is
false the loop returns without publishing and never reschedules, otherwise
it publishes the progress value and reschedules itself. The input list is
the per-frame sequence of `(active, seekSec)` observations; the output is
the sequence of published progress values. -/
def progressLoop (durationMs : Option Rat) : List (Bool × Rat) → List (Option Rat)
  | [] => []
  | (a, s) :: rest =>
    match updateProgressTick a s durationMs with
    | none => []
    | some v => v :: progressLoop durationMs rest

/-- Clamping to the closed interval `[0, 1]` — the spec's description of the
published progress value, to be compared with what the code computes. -/
def clamp01 (x : Rat) : Rat := min 1 (max 0 x)

/-- Modelled from the spec: `easeOutCubic` from `helpers/easing` (imported
by `src/index.js` but not part of the provided sources). Per the spec
(§4.3): with `n = t / d`, the result is `c * ((n - 1)^3 + 1) + b`, which
starts at `b` at `t = 0` and reaches `b + c` at `t = d`. -/
def easeOutCubic (t b c d : Rat) : Rat :=
  c * ((t / d - 1) ^ 3 + 1) + b

/-- The per-point interpolation step of `animateIcon` (`src/index.js` lines
159-167): for one point, ease x from `initialX` by `finalX - initialX` and
y from `initialY` by `finalY - initialY` over `duration`. -/
def morphPoint (time duration : Rat) (ip fp : Rat × Rat) : Rat × Rat :=
  (easeOutCubic time ip.1 (fp.1 - ip.1) duration,
   easeOutCubic time ip.2 (fp.2 - ip.2) duration)

/-- One frame tick of the `updatePosition` closure inside `animateIcon`
(`src/index.js` lines 149-173): with `time = now - startTime`, if
`time > duration` the run ends and publishes nothing (`none`); otherwise it
publishes the pointwise-eased icon points and reschedules. The closure
captures `startTime`, `duration`, `initialPoints` and `finalPoints`; it
consults no cancellation token of any kind. -/
def iconTick (time duration : Rat)
    (initialPoints finalPoints : List (Rat × Rat)) :
    Option (List (Rat × Rat)) :=
  if duration < time then none
  else some (List.zipWith (morphPoint time duration) initialPoints finalPoints)

/-- The component's mutable fields relevant to session management:
`this.howler` (the id of the currently bound howler session, if any),
the ids of sessions released so far by `unload()`, a counter supplying
fresh session ids, and the `loading` / `duration` / `progress` state
fields. -/
structure ComponentState where
  howler : Option Nat
  releasedIds : List Nat
  nextId : Nat
  loading : Bool
  duration : Option Rat
  progress : Rat
deriving DecidableEq

/-- The state set up by the constructor (`src/index.js` lines 49-59),
before `componentWillMount` runs: no howler bound yet, `loading: true`,
no duration recorded, `progress: 0`. -/
def initialState : ComponentState :=
  { howler := none, releasedIds := [], nextId := 0,
    loading := true, duration := none, progress := 0 }

/-- `setupHowler()` from `src/index.js` lines 107-122: if a howler is
currently bound (`if (this.howler && this.howler.unload)`), it is unloaded
(released) first; then a fresh `Howl` is bound. When no howler was ever
bound, nothing is released — the guard makes that a no-op, not an error.
Note that `setupHowler` does not touch `loading`, `duration` or
`progress`; only the asynchronous `onload` callback does. -/
def setupHowler (s : ComponentState) : ComponentState :=
  match s.howler with
  | some h =>
    { s with howler := some s.nextId, releasedIds := h :: s.releasedIds,
             nextId := s.nextId + 1 }
  | none => { s with howler := some s.nextId, nextId := s.nextId + 1 }

/-- The `onload` callback registered in `setupHowler` (`src/index.js`
lines 115-120): sets `loading: false` and records
`duration = this.howler.duration() * 1000`. -/
def handleLoad (s : ComponentState) (durationSec : Rat) : ComponentState :=
  { s with loading := false, duration := some (durationSec * 1000) }

/-- `componentWillUnmount()` from `src/index.js` lines 65-67:
`this.howler.unload()` — releases the currently bound session (the bound
reference itself is left in place, as in the source). -/
def componentWillUnmount (s : ComponentState) : ComponentState :=
  match s.howler with
  | some h => { s with releasedIds := h :: s.releasedIds }
  | none => s

/-- Number of engine sessions currently live: sessions created
(`nextId`) minus sessions released. -/
def liveSessions (s : ComponentState) : Nat :=
  s.nextId - s.releasedIds.length

/-- Concrete icon-point lists used to instantiate the morph theorems:
a play-like polygon and a stop-like square (shapes themselves live in
`helpers/icon-points`, outside the provided sources; the morph claims are
parametric in the shapes). -/
def ipEx : List (Rat × Rat) := [(16, 11), (16, 34), (28, 17), (28, 28)]

/-- Concrete target icon-point list (a square), see `ipEx`. -/
def fpEx : List (Rat × Rat) := [(14, 14), (14, 31), (31, 31), (31, 14)]

/-- A component state as it stands after the first bind and a completed
load: session 0 bound, nothing released, `loading = false`, a recorded
duration of 3000 ms. Used as the concrete input for the rebind claims. -/
def c8ex : ComponentState :=
  { howler := some 0, releasedIds := [], nextId := 1,
    loading := false, duration := some 3000, progress := 0 }

/-- All ticks of the progress loop publish while the flag stays true:
one publish per tick. -/
lemma progressLoop_length_of_active (durMs : Option Rat)
    (l : List (Bool × Rat)) (h : ∀ t ∈ l, t.1 = true) :
    (progressLoop durMs l).length = l.length := by
  induction l with
  | nil => rfl
  | cons t rest ih =>
    obtain ⟨a, s⟩ := t
    have ha : a = true := h (a, s) (List.mem_cons_self _ _)
    subst ha
    simp only [progressLoop, updateProgressTick, if_pos rfl]
    simpa using ih fun t ht => h t (List.mem_cons_of_mem _ ht)

/-- C1: on every tick of the progress loop taken while the active flag is
true and the session is loaded (a positive recorded duration), the
published progress value is `seek() * 1000 / duration`, which for
`0 ≤ elapsed ≤ duration` coincides with the clamp of that quotient to
`[0, 1]`; it lies in `[0, 1]`, is `0` at elapsed `0`, and is `1` at
elapsed equal to the duration. -/
theorem C1_progress (seekSec durMs : Rat) (hd : 0 < durMs)
    (h0 : 0 ≤ seekSec * 1000) (h1 : seekSec * 1000 ≤ durMs) :
    updateProgressTick true seekSec (some durMs)
      = some (some (clamp01 (seekSec * 1000 / durMs))) ∧
    0 ≤ seekSec * 1000 / durMs ∧ seekSec * 1000 / durMs ≤ 1 ∧
    (seekSec = 0 →
      updateProgressTick true seekSec (some durMs) = some (some 0)) ∧
    (seekSec * 1000 = durMs →
      updateProgressTick true seekSec (some durMs) = some (some 1)) := by
  have hdiv0 : 0 ≤ seekSec * 1000 / durMs := div_nonneg h0 hd.le
  have hdiv1 : seekSec * 1000 / durMs ≤ 1 := (div_le_one hd).2 h1
  have hclamp : clamp01 (seekSec * 1000 / durMs) = seekSec * 1000 / durMs := by
    rw [clamp01, max_eq_right hdiv0, min_eq_right hdiv1]
  have htick : updateProgressTick true seekSec (some durMs)
      = some (some (seekSec * 1000 / durMs)) := by
    simp [updateProgressTick, jsDiv, hd.ne']
  refine ⟨by rw [htick, hclamp], hdiv0, hdiv1, ?_, ?_⟩
  · intro hs
    subst hs
    simpa using htick
  · intro hde
    rw [htick, hde, div_self hd.ne']

/-- Witness for `C1_progress` at `seek = 1` s, `duration = 2000` ms. -/
theorem C1_witness :
    updateProgressTick true 1 (some 2000)
      = some (some (clamp01 ((1 : Rat) * 1000 / 2000))) ∧
    0 ≤ (1 : Rat) * 1000 / 2000 ∧ (1 : Rat) * 1000 / 2000 ≤ 1 ∧
    ((1 : Rat) = 0 → updateProgressTick true 1 (some 2000) = some (some 0)) ∧
    ((1 : Rat) * 1000 = 2000 →
      updateProgressTick true 1 (some 2000) = some (some 1)) :=
  C1_progress 1 2000 (by norm_num) (by norm_num) (by norm_num)

/-- C6: the progress loop stops at the first tick that observes the active
flag false: the publishes of a run whose observations are `pre` (all
active) followed by an inactive observation and then anything are exactly
the publishes of `pre` — one per active tick — and nothing afterwards. -/
theorem C6_loop_stops (durMs : Option Rat) (pre post : List (Bool × Rat))
    (s : Rat) (hpre : ∀ t ∈ pre, t.1 = true) :
    progressLoop durMs (pre ++ (false, s) :: post) = progressLoop durMs pre ∧
    (progressLoop durMs (pre ++ (false, s) :: post)).length = pre.length := by
  have key : progressLoop durMs (pre ++ (false, s) :: post)
      = progressLoop durMs pre := by
    induction pre with
    | nil => rfl
    | cons t rest ih =>
      obtain ⟨a, q⟩ := t
      have ha : a = true := hpre (a, q) (List.mem_cons_self _ _)
      subst ha
      simp only [List.cons_append, progressLoop, updateProgressTick, if_pos rfl]
      exact congrArg _ (ih fun t ht => hpre t (List.mem_cons_of_mem _ ht))
  refine ⟨key, ?_⟩
  rw [key, progressLoop_length_of_active durMs pre hpre]

/-- Witness for `C6_loop_stops`: two active ticks, then a deactivation,
then a further frame that publishes nothing. -/
theorem C6_witness :
    progressLoop (some 2000) ([(true, 1), (true, 2)] ++ (false, 3) :: [(true, 4)])
      = progressLoop (some 2000) [(true, 1), (true, 2)] ∧
    (progressLoop (some 2000)
        ([(true, 1), (true, 2)] ++ (false, 3) :: [(true, 4)])).length
      = ([(true, 1), (true, 2)] : List (Bool × Rat)).length :=
  C6_loop_stops (some 2000) [(true, 1), (true, 2)] [(true, 4)] 3 (by decide)

/-- C10: if the active flag is true while the session's load callback has
not yet fired (`this.state.duration` still `undefined`), every tick of the
progress loop publishes the result of the unguarded division by the unset
duration — not a finite number (`NaN`, modelled `none`), hence not equal
to any rational in `[0, 1]`. -/
theorem C10_nan (seekSec : Rat) :
    updateProgressTick true seekSec none = some none ∧
    ∀ q : Rat, 0 ≤ q → q ≤ 1 →
      updateProgressTick true seekSec none ≠ some (some q) := by
  refine ⟨rfl, ?_⟩
  intro q _ _ hcontra
  simp [updateProgressTick, jsDiv] at hcontra

/-- Witness for `C10_nan` at `seek = 7`, checked against `q = 1/2`. -/
theorem C10_witness :
    updateProgressTick true 7 none = some none ∧
    updateProgressTick true 7 none ≠ some (some ((1 : Rat) / 2)) :=
  ⟨(C10_nan 7).1, (C10_nan 7).2 ((1 : Rat) / 2) (by norm_num) (by norm_num)⟩

/-- C3: on every props update in which the active flag goes false → true,
the coordinator calls `play()` exactly once, calls
`fade(0, 1, fadeInLength)`, starts an icon morph toward the stop shape,
resets the progress state to 0, and starts the progress loop — whatever
the URLs and fade lengths. -/
theorem C3_activate (prevUrl nextUrl : String) (fadeInLength fadeOutLength : Rat) :
    ((componentWillReceiveProps false true prevUrl nextUrl fadeInLength
        fadeOutLength).filter isPlay).length = 1 ∧
    Effect.fade 0 1 fadeInLength
      ∈ componentWillReceiveProps false true prevUrl nextUrl fadeInLength
          fadeOutLength ∧
    Effect.animateIcon Shape.stop
      ∈ componentWillReceiveProps false true prevUrl nextUrl fadeInLength
          fadeOutLength ∧
    Effect.setProgress 0
      ∈ componentWillReceiveProps false true prevUrl nextUrl fadeInLength
          fadeOutLength ∧
    Effect.startProgressLoop
      ∈ componentWillReceiveProps false true prevUrl nextUrl fadeInLength
          fadeOutLength := by
  by_cases h : prevUrl = nextUrl <;>
    simp [componentWillReceiveProps, triggerPlayAudio, h, isPlay]

/-- C4: on every props update in which the active flag goes true → false,
the coordinator performs exactly one fade — `fade(1, 0, fadeOutLength)` —
schedules exactly one `stop()` on a timer firing after `fadeOutLength`
(a `setTimeout`, not a frame callback), starts an icon morph toward the
play shape, and resets the progress state to 0. -/
theorem C4_deactivate (prevUrl nextUrl : String) (fadeInLength fadeOutLength : Rat) :
    ((componentWillReceiveProps true false prevUrl nextUrl fadeInLength
        fadeOutLength).filter isFade).length = 1 ∧
    Effect.fade 1 0 fadeOutLength
      ∈ componentWillReceiveProps true false prevUrl nextUrl fadeInLength
          fadeOutLength ∧
    ((componentWillReceiveProps true false prevUrl nextUrl fadeInLength
        fadeOutLength).filter isScheduleStop).length = 1 ∧
    Effect.scheduleStop fadeOutLength
      ∈ componentWillReceiveProps true false prevUrl nextUrl fadeInLength
          fadeOutLength ∧
    Effect.animateIcon Shape.play
      ∈ componentWillReceiveProps true false prevUrl nextUrl fadeInLength
          fadeOutLength ∧
    Effect.setProgress 0
      ∈ componentWillReceiveProps true false prevUrl nextUrl fadeInLength
          fadeOutLength := by
  by_cases h : prevUrl = nextUrl <;>
    simp [componentWillReceiveProps, triggerStopAudio, h, isFade, isScheduleStop]

/-- C9: on every props update in which the active flag keeps its previous
value — activate while already playing or deactivate while already idle —
no audio-engine transport call is made: zero `play()` calls, zero
`fadeVolume` calls, and zero scheduled `stop()` calls (even when the URL
also changes). -/
theorem C9_noop (a : Bool) (prevUrl nextUrl : String)
    (fadeInLength fadeOutLength : Rat) :
    ((componentWillReceiveProps a a prevUrl nextUrl fadeInLength
        fadeOutLength).filter isPlay).length = 0 ∧
    ((componentWillReceiveProps a a prevUrl nextUrl fadeInLength
        fadeOutLength).filter isFade).length = 0 ∧
    ((componentWillReceiveProps a a prevUrl nextUrl fadeInLength
        fadeOutLength).filter isScheduleStop).length = 0 := by
  cases a <;> by_cases h : prevUrl = nextUrl <;>
    simp [componentWillReceiveProps, h, isPlay, isFade, isScheduleStop]

/-- After `m + 1` binds from the fresh state, session `m` is the bound one,
`m + 1` sessions were created, and `m` of them have been released (each
bind released the previously bound session first). -/
lemma setupHowler_iter (m : Nat) :
    (setupHowler^[m + 1] initialState).howler = some m ∧
    (setupHowler^[m + 1] initialState).nextId = m + 1 ∧
    (setupHowler^[m + 1] initialState).releasedIds.length = m := by
  induction m with
  | zero =>
    simp [Function.iterate_one, setupHowler, initialState]
  | succ k ih =>
    obtain ⟨h1, h2, h3⟩ := ih
    rw [Function.iterate_succ_apply']
    simp only [setupHowler, h1, h2, h3, List.length_cons]
    exact ⟨trivial, trivial, trivial⟩

/-- `componentWillUnmount` on a state with a bound session releases exactly
that session and touches nothing else. -/
lemma componentWillUnmount_some (s : ComponentState) (h : Nat)
    (hh : s.howler = some h) :
    (componentWillUnmount s).releasedIds = h :: s.releasedIds ∧
    (componentWillUnmount s).nextId = s.nextId := by
  rw [componentWillUnmount, hh]
  exact ⟨rfl, rfl⟩

/-- C5: at every point of a coordinator's lifetime at most one audio
session is live. Binding releases any existing session before creating the
new one (the first bind, against a never-bound session, releases nothing —
a no-op, not an error); after any `n ≥ 1` binds exactly one session is
live, and the unmount release frees exactly one session, leaving zero
live. -/
theorem C5_sessions (n : Nat) (hn : 1 ≤ n) :
    (∀ k : Nat, liveSessions (setupHowler^[k] initialState) ≤ 1) ∧
    (setupHowler initialState).releasedIds = [] ∧
    liveSessions (setupHowler^[n] initialState) = 1 ∧
    (componentWillUnmount (setupHowler^[n] initialState)).releasedIds.length
      = (setupHowler^[n] initialState).releasedIds.length + 1 ∧
    liveSessions (componentWillUnmount (setupHowler^[n] initialState)) = 0 := by
  obtain ⟨m, rfl⟩ : ∃ m, n = m + 1 := ⟨n - 1, (Nat.succ_pred_eq_of_pos hn).symm⟩
  obtain ⟨h1, h2, h3⟩ := setupHowler_iter m
  obtain ⟨hu1, hu2⟩ := componentWillUnmount_some _ m h1
  refine ⟨?_, ?_, ?_, ?_, ?_⟩
  · intro k
    cases k with
    | zero => decide
    | succ j =>
      obtain ⟨_, g2, g3⟩ := setupHowler_iter j
      rw [liveSessions, g2, g3]
      omega
  · simp [setupHowler, initialState]
  · rw [liveSessions, h2, h3]
    omega
  · rw [hu1, List.length_cons]
  · rw [liveSessions, hu1, hu2, h2, List.length_cons, h3]
    omega

/-- Witness for `C5_sessions` at `n = 3` binds. -/
theorem C5_witness :
    (∀ k : Nat, liveSessions (setupHowler^[k] initialState) ≤ 1) ∧
    (setupHowler initialState).releasedIds = [] ∧
    liveSessions (setupHowler^[3] initialState) = 1 ∧
    (componentWillUnmount (setupHowler^[3] initialState)).releasedIds.length
      = (setupHowler^[3] initialState).releasedIds.length + 1 ∧
    liveSessions (componentWillUnmount (setupHowler^[3] initialState)) = 0 :=
  C5_sessions 3 (by norm_num)

/-- C8, counterexample: changing the URL while a loaded session is bound
(state `c8ex`: `loading = false`, recorded duration 3000 ms) calls
`setupHowler()`, after which the loading flag is still `false` — it does
not become transiently true as the claim states — and the recorded
duration is still the old session's 3000 ms, so the next progress tick
divides by the old session's duration. -/
theorem C8_counterexample :
    (setupHowler c8ex).loading ≠ true ∧
    (setupHowler c8ex).duration = c8ex.duration ∧
    updateProgressTick true 1 (setupHowler c8ex).duration
      = some (some ((1 : Rat) * 1000 / 3000)) := by
  refine ⟨by decide, by decide, ?_⟩
  simp [setupHowler, c8ex, updateProgressTick, jsDiv]

/-- C8 as amended: on every URL change with a session bound, the old
session is released and a fresh session is bound; but `setupHowler` leaves
the `loading` flag and the recorded `duration` unchanged — the flag only
becomes false (and the duration only updates) when the new session's
`onload` callback later fires — so progress ticks in that window still use
the old session's duration. -/
theorem C8_amended_rebind (s : ComponentState) (h : Nat)
    (hh : s.howler = some h) :
    (setupHowler s).howler = some s.nextId ∧
    h ∈ (setupHowler s).releasedIds ∧
    (setupHowler s).loading = s.loading ∧
    (setupHowler s).duration = s.duration ∧
    ∀ dSec : Rat, (handleLoad (setupHowler s) dSec).loading = false ∧
      (handleLoad (setupHowler s) dSec).duration = some (dSec * 1000) := by
  rw [setupHowler, hh]
  refine ⟨rfl, List.mem_cons_self _ _, rfl, rfl, fun dSec => ⟨rfl, rfl⟩⟩

/-- Witness for `C8_amended_rebind` at the concrete loaded state `c8ex`. -/
theorem C8_amended_witness :
    (setupHowler c8ex).howler = some c8ex.nextId ∧
    0 ∈ (setupHowler c8ex).releasedIds ∧
    (setupHowler c8ex).loading = c8ex.loading ∧
    (setupHowler c8ex).duration = c8ex.duration ∧
    ∀ dSec : Rat, (handleLoad (setupHowler c8ex) dSec).loading = false ∧
      (handleLoad (setupHowler c8ex) dSec).duration = some (dSec * 1000) :=
  C8_amended_rebind c8ex 0 rfl

/-- For `x` in `[-1, 0]`, the cube `x^3` stays in `[-1, 0]`. -/
lemma cube_mem_of_mem (x : Rat) (hx0 : -1 ≤ x) (hx1 : x ≤ 0) :
    -1 ≤ x ^ 3 ∧ x ^ 3 ≤ 0 := by
  constructor
  · nlinarith [sq_nonneg (x + 1), sq_nonneg x, sq_nonneg (2 * x - 1)]
  · nlinarith [sq_nonneg x]

/-- The ease-out cubic stays between its start value `b` and its end value
`b + c` for all times in `[0, d]`. -/
lemma easeOutCubic_between (t b c d : Rat) (hd : 0 < d)
    (h0 : 0 ≤ t) (h1 : t ≤ d) :
    min b (b + c) ≤ easeOutCubic t b c d ∧
    easeOutCubic t b c d ≤ max b (b + c) := by
  have hn0 : 0 ≤ t / d := div_nonneg h0 hd.le
  have hn1 : t / d ≤ 1 := (div_le_one hd).2 h1
  obtain ⟨hc0, hc1⟩ := cube_mem_of_mem (t / d - 1) (by linarith) (by linarith)
  rw [easeOutCubic]
  rcases le_total 0 c with hc | hc
  · rw [min_eq_left (by linarith), max_eq_right (by linarith)]
    constructor
    · nlinarith [mul_nonneg hc (by linarith : (0 : Rat) ≤ (t / d - 1) ^ 3 + 1)]
    · nlinarith [mul_le_mul_of_nonneg_left (by linarith : (t / d - 1) ^ 3 + 1 ≤ 1) hc]
  · rw [min_eq_right (by linarith), max_eq_left (by linarith)]
    constructor
    · nlinarith [mul_le_mul_of_nonpos_left (by linarith : (t / d - 1) ^ 3 + 1 ≤ 1) hc]
    · nlinarith [mul_nonpos_of_nonpos_of_nonneg hc
        (by linarith : (0 : Rat) ≤ (t / d - 1) ^ 3 + 1)]

/-- The ease-out cubic reaches exactly its end value at `t = d`. -/
lemma easeOutCubic_final (b c d : Rat) (hd : d ≠ 0) :
    easeOutCubic d b c d = b + c := by
  rw [easeOutCubic, div_self hd]
  ring

/-- At `t = d` the per-point morph step yields exactly the final point. -/
lemma morphPoint_final (d : Rat) (hd : d ≠ 0) (p q : Rat × Rat) :
    morphPoint d d p q = q := by
  rw [morphPoint, easeOutCubic_final, easeOutCubic_final] <;> try exact hd
  rw [Prod.ext_iff]
  constructor <;> simp

/-- Zipping the morph step at `t = d` over equal-length point lists
returns exactly the final point list. -/
lemma zipWith_morphPoint_final (d : Rat) (hd : d ≠ 0)
    (ip fp : List (Rat × Rat)) (h : ip.length = fp.length) :
    List.zipWith (morphPoint d d) ip fp = fp := by
  induction ip generalizing fp with
  | nil =>
    cases fp with
    | nil => rfl
    | cons b fp => simp at h
  | cons a ip ih =>
    cases fp with
    | nil => simp at h
    | cons b fp =>
      rw [List.zipWith_cons_cons, morphPoint_final d hd]
      rw [List.length_cons, List.length_cons] at h
      rw [ih fp (Nat.succ_injective h)]

/-- C2: for a morph run of duration `d > 0` from `ip` to a target shape
`fp` of the same length, the tick at elapsed time exactly `d` publishes
exactly the target points (`time > duration` is false at `time = d`, and
the ease-out cubic lands exactly on each final coordinate); and every tick
at an intermediate time `0 ≤ t ≤ d` publishes points each of whose x and y
coordinates lies between its initial and its final value — monotone
approach, no overshoot. -/
theorem C2_icon (d : Rat) (ip fp : List (Rat × Rat)) (hd : 0 < d)
    (hlen : ip.length = fp.length) :
    iconTick d d ip fp = some fp ∧
    ∀ t : Rat, 0 ≤ t → t ≤ d →
      iconTick t d ip fp = some (List.zipWith (morphPoint t d) ip fp) ∧
      ∀ p q : Rat × Rat, (p, q) ∈ ip.zip fp →
        min p.1 q.1 ≤ (morphPoint t d p q).1 ∧
        (morphPoint t d p q).1 ≤ max p.1 q.1 ∧
        min p.2 q.2 ≤ (morphPoint t d p q).2 ∧
        (morphPoint t d p q).2 ≤ max p.2 q.2 := by
  constructor
  · rw [iconTick, if_neg (lt_irrefl d), zipWith_morphPoint_final d hd.ne' ip fp hlen]
  · intro t ht0 ht1
    constructor
    · rw [iconTick, if_neg (not_lt.2 ht1)]
    · intro p q _
      obtain ⟨hx0, hx1⟩ := easeOutCubic_between t p.1 (q.1 - p.1) d hd ht0 ht1
      obtain ⟨hy0, hy1⟩ := easeOutCubic_between t p.2 (q.2 - p.2) d hd ht0 ht1
      have hq1 : p.1 + (q.1 - p.1) = q.1 := by ring
      have hq2 : p.2 + (q.2 - p.2) = q.2 := by ring
      rw [hq1] at hx0 hx1
      rw [hq2] at hy0 hy1
      exact ⟨hx0, hx1, hy0, hy1⟩

/-- Witness for `C2_icon` at duration 450 ms with the concrete point lists
`ipEx` and `fpEx`. -/
theorem C2_witness :
    iconTick 450 450 ipEx fpEx = some fpEx ∧
    ∀ t : Rat, 0 ≤ t → t ≤ 450 →
      iconTick t 450 ipEx fpEx = some (List.zipWith (morphPoint t 450) ipEx fpEx) ∧
      ∀ p q : Rat × Rat, (p, q) ∈ ipEx.zip fpEx →
        min p.1 q.1 ≤ (morphPoint t 450 p q).1 ∧
        (morphPoint t 450 p q).1 ≤ max p.1 q.1 ∧
        min p.2 q.2 ≤ (morphPoint t 450 p q).2 ∧
        (morphPoint t 450 p q).2 ≤ max p.2 q.2 :=
  C2_icon 450 ipEx fpEx (by norm_num) (by decide)

/-- C7, counterexample: a morph run of duration 450 ms that is superseded
by a new run at elapsed time 100 ms still publishes icon points on its
tick at elapsed time 200 ms — after supersession — because `updatePosition`
checks only its own elapsed time against its own duration and no
supersession signal at all. The claim that a superseded run stops
producing updates once superseded is therefore false. -/
theorem C7_counterexample :
    (100 : Rat) < 200 ∧ iconTick 200 450 ipEx fpEx ≠ none := by
  constructor
  · norm_num
  · rw [iconTick, if_neg (by norm_num)]
    simp

/-- C7 as amended: a superseded run's continuation does not stop at
supersession; it stops only through its own elapsed-time check, publishing
nothing from the first tick whose elapsed time exceeds the run's own
duration (so stale publishes are confined to the window before the old
run's duration expires). -/
theorem C7_amended_stop (t d : Rat) (ip fp : List (Rat × Rat)) (h : d < t) :
    iconTick t d ip fp = none := by
  rw [iconTick, if_pos h]

/-- Witness for `C7_amended_stop`: a tick at 500 ms of a 450 ms run
publishes nothing. -/
theorem C7_witness : iconTick 500 450 ipEx fpEx = none :=
  C7_amended_stop 500 450 ipEx fpEx (by norm_num)
